import Mathlib

/-!
# Verification of the 10x-Linkedin-Outreach core against its specification

The repository ships two setup scripts (`setup.py`, `setup_100x.py`); the
Campaign Orchestrator and Admission Controller described by the specification
are not part of the shipped sources, so they are modelled here directly from
the specification's words.  The setup scripts are embedded faithfully from
their Python sources.
-/

/-! ## Admission Controller (modelled from the spec, §3 and §4.1) -/

/-- Counter table keyed by action kind (a Python dict of ints). -/
abbrev CountTable := List (String × Nat)

/-- Look up a per-kind counter; missing kinds count as zero. -/
def getCount (t : CountTable) (kind : String) : Nat :=
  match t with
  | [] => 0
  | (k, n) :: rest => if k = kind then n else getCount rest kind

/-- Increment a per-kind counter, inserting the kind if absent. -/
def incCount (t : CountTable) (kind : String) : CountTable :=
  match t with
  | [] => [(kind, 1)]
  | (k, n) :: rest => if k = kind then (k, n + 1) :: rest else (k, n) :: incCount rest kind

/-- Total of all per-kind counters ("summed across all action kinds"). -/
def sumCounts (t : CountTable) : Nat :=
  match t with
  | [] => 0
  | (_, n) :: rest => n + sumCounts rest

/-- Seconds since the local midnight of the day containing `now`. -/
def secondsOfDay (now : Nat) : Nat := now % 86400

/-- Local hour of day (0..23). -/
def hourOfDay (now : Nat) : Nat := secondsOfDay now / 3600

/-- Day index, used to detect the wall-clock date advancing. -/
def dayIndex (now : Nat) : Nat := now / 86400

/-- Hour index, used to detect the wall-clock hour advancing. -/
def hourIndex (now : Nat) : Nat := now / 3600

/-- Seconds until the next local midnight after `now`. -/
def secondsUntilMidnight (now : Nat) : Nat := 86400 - secondsOfDay now

/-- Modelled from the spec: the platform limit profile, a configuration input
holding a daily ceiling per action kind, an hourly burst ceiling, minimum and
maximum pacing delays, a cooldown duration after a burst trip, and the allowed
local hour-of-day window. -/
structure LimitProfile where
  dailyCeiling : CountTable
  hourlyBurstCeiling : Nat
  minDelaySeconds : Nat
  maxDelaySeconds : Nat
  cooldownSeconds : Nat
  windowStartHour : Nat
  windowEndHour : Nat
deriving DecidableEq

/-- Daily ceiling configured for one action kind. -/
def dailyCeilingFor (p : LimitProfile) (kind : String) : Nat :=
  getCount p.dailyCeiling kind

/-- Is `now` inside the platform's allowed hour-of-day window? -/
def inWindow (p : LimitProfile) (now : Nat) : Bool :=
  decide (p.windowStartHour ≤ hourOfDay now) && decide (hourOfDay now < p.windowEndHour)

/-- Seconds until the allowed window next opens: if before today's opening hour,
wait until it; otherwise (past the window's end) wrap to the next day's opening. -/
def secondsUntilWindow (p : LimitProfile) (now : Nat) : Nat :=
  if hourOfDay now < p.windowStartHour then
    p.windowStartHour * 3600 - secondsOfDay now
  else
    (86400 - secondsOfDay now) + p.windowStartHour * 3600

/-- One immutable action-history entry kept by the Admission Controller. -/
structure HistoryEntry where
  kind : String
  target : String
  success : Bool
  details : String
  time : Nat
deriving DecidableEq

/-- Modelled from the spec: the per-(user, platform) Admission Record — rolling
daily and hourly counts keyed by action kind, a cooldown-expiry timestamp, the
timestamp of the last action, the last-seen day and hour (for counter resets),
and the bounded action history. -/
structure AdmissionRecord where
  dailyCounts : CountTable
  hourlyCounts : CountTable
  cooldownExpiry : Option Nat
  lastAction : Option Nat
  lastSeenDay : Nat
  lastSeenHour : Nat
  history : List HistoryEntry
deriving DecidableEq

/-- Daily counters reset when the wall-clock date advances past the record's
last-seen date. -/
def rolloverDay (r : AdmissionRecord) (now : Nat) : AdmissionRecord :=
  if r.lastSeenDay = dayIndex now then r
  else { r with dailyCounts := [], lastSeenDay := dayIndex now }

/-- Hourly counters reset when the wall-clock hour advances. -/
def rolloverHour (r : AdmissionRecord) (now : Nat) : AdmissionRecord :=
  if r.lastSeenHour = hourIndex now then r
  else { r with hourlyCounts := [], lastSeenHour := hourIndex now }

/-- Modelled from the spec: daily counters reset when the wall-clock date
advances past the record's last-seen date; hourly counters reset when the
wall-clock hour advances. -/
def rollover (r : AdmissionRecord) (now : Nat) : AdmissionRecord :=
  rolloverHour (rolloverDay r now) now

/-- Is a cooldown set and not yet expired at `now`? -/
def cooldownActive (r : AdmissionRecord) (now : Nat) : Bool :=
  match r.cooldownExpiry with
  | some e => decide (now < e)
  | none => false

/-- Seconds remaining on the active cooldown. -/
def cooldownRemaining (r : AdmissionRecord) (now : Nat) : Nat :=
  match r.cooldownExpiry with
  | some e => e - now
  | none => 0

/-- The structured admission decision returned by `canProceed`. -/
structure Decision where
  allowed : Bool
  reason : String
  waitSeconds : Nat
deriving DecidableEq

/-- The ordered denial checks of `CanProceed`, applied to a record whose
counters have already been rolled over to the current day and hour. -/
def canProceedChecks (p : LimitProfile) (r : AdmissionRecord) (kind : String) (now : Nat) :
    Decision × AdmissionRecord :=
  if cooldownActive r now then
    ({ allowed := false, reason := "cooldown active", waitSeconds := cooldownRemaining r now }, r)
  else if !(inWindow p now) then
    ({ allowed := false, reason := "outside allowed hours",
       waitSeconds := secondsUntilWindow p now }, r)
  else if dailyCeilingFor p kind ≤ getCount r.dailyCounts kind then
    ({ allowed := false, reason := "daily limit reached",
       waitSeconds := secondsUntilMidnight now }, r)
  else if p.hourlyBurstCeiling ≤ sumCounts r.hourlyCounts then
    ({ allowed := false, reason := "hourly burst limit reached",
       waitSeconds := p.cooldownSeconds },
     { r with cooldownExpiry := some (now + p.cooldownSeconds) })
  else
    ({ allowed := true, reason := "", waitSeconds := 0 }, r)

/-- Modelled from the spec: `CanProceed(user, platform, actionKind)` for a
platform with a known limit profile.  After the counter rollover, checks, in
order: (a) active cooldown; (b) allowed hour-of-day window; (c) the action
kind's daily ceiling (deny until next local midnight); (d) the hourly burst
ceiling summed across all action kinds (enter cooldown and deny with the
cooldown duration).  If none trigger, allow with `waitSeconds = 0`. -/
def canProceed (p : LimitProfile) (r0 : AdmissionRecord) (kind : String) (now : Nat) :
    Decision × AdmissionRecord :=
  canProceedChecks p (rollover r0 now) kind now

/-- The unconditional bookkeeping of `RecordAction` on a rolled-over record:
bump both per-kind counters, stamp the action time, append to the bounded
history. -/
def applyAction (r : AdmissionRecord) (kind target : String) (now : Nat)
    (success : Bool) (details : String) : AdmissionRecord :=
  { r with
    dailyCounts := incCount r.dailyCounts kind,
    hourlyCounts := incCount r.hourlyCounts kind,
    lastAction := some now,
    history := (⟨kind, target, success, details, now⟩ :: r.history).take 1000 }

/-- Modelled from the spec: `RecordAction(user, platform, actionKind, target,
success, details)` — always increments the per-kind daily and hourly counters
and updates the last-action timestamp, regardless of success or failure, and
appends a bounded (last 1000) action-history entry. -/
def recordAction (r0 : AdmissionRecord) (kind target : String) (now : Nat)
    (success : Bool) (details : String) : AdmissionRecord :=
  applyAction (rollover r0 now) kind target now success details

/-- Modelled from the spec: `RemainingLimits(user, platform)` — ceiling minus
current daily count, floored at zero, per configured action kind. -/
def remainingLimits (p : LimitProfile) (r : AdmissionRecord) : CountTable :=
  p.dailyCeiling.map (fun kc => (kc.1, kc.2 - getCount r.dailyCounts kc.1))

/-! ## Pacing delay (modelled from the spec, §4.1 `CalculateDelay`) -/

/-- Time-of-day buckets the spec's multipliers distinguish. -/
inductive TimeBucket
  | normalHours
  | lunchHour
  | evening
  | offHours
deriving DecidableEq

/-- Clamp `x` into the interval `[lo, hi]`. -/
def clampQ (lo hi x : ℚ) : ℚ := max lo (min hi x)

/-- Modelled from the spec: `CalculateDelay(platform, actionKind)` — draw from a
bounded distribution centered between the platform's configured min/max delay,
clamp to `[min, max]`, then apply the deterministic multiplier for the current
time-of-day bucket and add a small positive jitter (0–10%).  The draw, the
multiplier table and the jitter fraction are explicit inputs. -/
def calculateDelay (minDelay maxDelay : ℚ) (mult : TimeBucket → ℚ)
    (bucket : TimeBucket) (draw jitter : ℚ) : ℚ :=
  clampQ minDelay maxDelay draw * mult bucket * (1 + jitter)

/-! ## Campaign Orchestrator (modelled from the spec, §3 and §4.2) -/

/-- Action lifecycle states. -/
inductive ActionStatus
  | pending
  | inProgress
  | completed
  | failed
  | skipped
deriving DecidableEq

/-- One concrete unit of work generated for a (phase, target) pair. -/
structure OAction where
  id : String
  kind : String
  platform : String
  targetId : String
  message : String
  status : ActionStatus
  retryCount : Nat
deriving DecidableEq

/-- One person or entity the campaign acts on, with per-platform handles. -/
structure Target where
  id : String
  name : String
  handles : List (String × String)
deriving DecidableEq

/-- Phase lifecycle states. -/
inductive PhaseStatus
  | pending
  | inProgress
  | completed
  | skipped
  | failed
deriving DecidableEq

/-- One homogeneous campaign step applied to all eligible targets. -/
structure Phase where
  platform : String
  actionKind : String
  template : String
  condition : Option String
  minDelaySeconds : Nat
  maxDelaySeconds : Nat
  status : PhaseStatus
  generated : Bool
  startTime : Option Nat
  endTime : Option Nat
  completedCount : Nat
  failedCount : Nat
  actions : List OAction
deriving DecidableEq

/-- Modelled from the spec: eligibility conditions over a closed vocabulary —
"has a handle on this platform", "previous phase's action on this target
succeeded" — with unknown condition names treated as always true (fail-open),
and no condition meaning always eligible. -/
def eligible (prev : Option Phase) (ph : Phase) (t : Target) : Bool :=
  match ph.condition with
  | none => true
  | some c =>
    if c = "has_handle" then t.handles.any (fun h => h.1 = ph.platform)
    else if c = "prev_phase_succeeded" then
      match prev with
      | some pp => pp.actions.any (fun a => a.targetId = t.id && a.status = ActionStatus.completed)
      | none => true
    else true

/-- Modelled from the spec: actions are generated lazily, at most once per
phase, by evaluating each target's eligibility condition. -/
def generateActions (prev : Option Phase) (ph : Phase) (targets : List Target) : Phase :=
  if ph.generated then ph
  else
    { ph with
      generated := true,
      actions := (targets.filter (eligible prev ph)).map (fun t =>
        { id := t.id, kind := ph.actionKind, platform := ph.platform, targetId := t.id,
          message := ph.template, status := ActionStatus.pending, retryCount := 0 }) }

/-- Generate a phase's actions if needed and mark it in-progress, recording a
start timestamp on first visit. -/
def markActive (prev : Option Phase) (ph : Phase) (targets : List Target) (now : Nat) : Phase :=
  { generateActions prev ph targets with
    status := PhaseStatus.inProgress,
    startTime :=
      match (generateActions prev ph targets).startTime with
      | some s => some s
      | none => some now }

/-- Mark a phase completed, recording an end timestamp. -/
def completePhase (ph : Phase) (now : Nat) : Phase :=
  { ph with status := PhaseStatus.completed, endTime := some now }

/-- Modelled from the spec: the scan inside `GetNextAction` — skip phases
already completed; for the first non-completed phase, generate lazily, mark it
in-progress (recording a start timestamp on first visit) and return its first
pending action; if it has no pending action left, mark it completed with an end
timestamp and continue with the next phase. -/
def scanPhases (targets : List Target) (now : Nat) :
    Option Phase → List Phase → List Phase × Option OAction
  | _, [] => ([], none)
  | prev, ph :: rest =>
    if ph.status = PhaseStatus.completed then
      (ph :: (scanPhases targets now (some ph) rest).1,
       (scanPhases targets now (some ph) rest).2)
    else
      match (markActive prev ph targets now).actions.find?
          (fun a => a.status = ActionStatus.pending) with
      | some a => (markActive prev ph targets now :: rest, some a)
      | none =>
        (completePhase (markActive prev ph targets now) now ::
           (scanPhases targets now
             (some (completePhase (markActive prev ph targets now) now)) rest).1,
         (scanPhases targets now
           (some (completePhase (markActive prev ph targets now) now)) rest).2)

/-- Campaign lifecycle states. -/
inductive CStatus
  | draft
  | pendingApproval
  | approved
  | running
  | paused
  | completed
  | cancelled
  | failed
deriving DecidableEq

/-- Terminal campaign states. -/
def terminalStatus (s : CStatus) : Bool :=
  s = CStatus.completed || s = CStatus.cancelled || s = CStatus.failed

/-- A named outreach program: lifecycle status, discovery specification,
ordered phases, targets and aggregate counters. -/
structure Campaign where
  id : String
  creator : String
  status : CStatus
  discoveryQuery : Option String
  phases : List Phase
  targets : List Target
  actionsCompleted : Nat
  actionsFailed : Nat
deriving DecidableEq

/-- Modelled from the spec: `GetNextAction(campaignId)` — scan the phases in
order; if every phase ends up completed (no pending action anywhere), mark the
campaign completed and return `None`. -/
def getNextAction (c : Campaign) (now : Nat) : Campaign × Option OAction :=
  match (scanPhases c.targets now none c.phases).2 with
  | some a => ({ c with phases := (scanPhases c.targets now none c.phases).1 }, some a)
  | none =>
    ({ c with
        phases := (scanPhases c.targets now none c.phases).1,
        status := CStatus.completed },
     none)

/-- Set the terminal status of the action with the given id. -/
def setResult (aid : String) (success : Bool) (a : OAction) : OAction :=
  if a.id = aid then
    { a with status := if success then ActionStatus.completed else ActionStatus.failed }
  else a

/-- Modelled from the spec: `RecordActionResult(campaignId, actionId, success,
result, error)` — find the action by identifier, set its terminal status and
increment the owning phase's and the campaign's aggregate counters; an unknown
action id is an invariant violation surfaced as an error. -/
def recordActionResult (c : Campaign) (aid : String) (success : Bool) : Option Campaign :=
  if c.phases.any (fun ph => ph.actions.any (fun a => a.id = aid)) then
    some { c with
      phases := c.phases.map (fun ph =>
        if ph.actions.any (fun a => a.id = aid) then
          { ph with
            actions := ph.actions.map (setResult aid success),
            completedCount := ph.completedCount + (if success then 1 else 0),
            failedCount := ph.failedCount + (if success then 0 else 1) }
        else ph),
      actionsCompleted := c.actionsCompleted + (if success then 1 else 0),
      actionsFailed := c.actionsFailed + (if success then 0 else 1) }
  else none

/-- The orchestrator operations that can change a campaign. -/
inductive Op
  | submit
  | approve (approver : String)
  | start
  | pause
  | resume
  | cancel
  | markFailed
  | nextAction (now : Nat)
  | recordResult (actionId : String) (success : Bool)
deriving DecidableEq

/-- Modelled from the spec: the lifecycle transitions of §4.2.  `submit`
requires at least one phase and a non-empty target list or a discovery
specification; `approve` requires an explicit approver identity; `pause` is
only valid from `running`; `cancel` from `running` or `paused`; any live state
may fail; `nextAction` and `recordResult` only run while `running`.  Invalid
transitions are rejected (`none`). -/
def step (op : Op) (c : Campaign) : Option Campaign :=
  match op with
  | Op.submit =>
    if c.status = CStatus.draft ∧ c.phases ≠ [] ∧
        (c.targets ≠ [] ∨ c.discoveryQuery ≠ none) then
      some { c with status := CStatus.pendingApproval }
    else none
  | Op.approve approver =>
    if c.status = CStatus.pendingApproval ∧ approver ≠ "" then
      some { c with status := CStatus.approved }
    else none
  | Op.start =>
    if c.status = CStatus.approved then some { c with status := CStatus.running } else none
  | Op.pause =>
    if c.status = CStatus.running then some { c with status := CStatus.paused } else none
  | Op.resume =>
    if c.status = CStatus.paused then some { c with status := CStatus.running } else none
  | Op.cancel =>
    if c.status = CStatus.running ∨ c.status = CStatus.paused then
      some { c with status := CStatus.cancelled }
    else none
  | Op.markFailed =>
    if terminalStatus c.status then none else some { c with status := CStatus.failed }
  | Op.nextAction now =>
    if c.status = CStatus.running then some (getNextAction c now).1 else none
  | Op.recordResult aid success =>
    if c.status = CStatus.running then recordActionResult c aid success else none

/-- Position of a status along the forward lifecycle; `running` and `paused`
share a rank because pause/resume is the one allowed cycle. -/
def statusRank : CStatus → Nat
  | CStatus.draft => 0
  | CStatus.pendingApproval => 1
  | CStatus.approved => 2
  | CStatus.running => 3
  | CStatus.paused => 3
  | CStatus.completed => 4
  | CStatus.cancelled => 4
  | CStatus.failed => 4

/-- The edges of the lifecycle graph of §4.2 (pause/resume included). -/
def forwardEdge : CStatus → CStatus → Bool
  | CStatus.draft, CStatus.pendingApproval => true
  | CStatus.pendingApproval, CStatus.approved => true
  | CStatus.approved, CStatus.running => true
  | CStatus.running, CStatus.paused => true
  | CStatus.paused, CStatus.running => true
  | CStatus.running, CStatus.completed => true
  | CStatus.running, CStatus.cancelled => true
  | CStatus.paused, CStatus.cancelled => true
  | CStatus.draft, CStatus.failed => true
  | CStatus.pendingApproval, CStatus.failed => true
  | CStatus.approved, CStatus.failed => true
  | CStatus.running, CStatus.failed => true
  | CStatus.paused, CStatus.failed => true
  | _, _ => false

/-! ## `setup.py` (embedded from the source) -/

/-- The environment `setup.py`'s `main` runs in: interpreter version and which
files/directories already exist, plus whether the dependency install succeeds. -/
structure SetupEnv where
  pyMajor : Nat
  pyMinor : Nat
  venvExists : Bool
  requirementsExists : Bool
  pipInstallOk : Bool
  envExists : Bool
  envExampleExists : Bool
  gitignoreExists : Bool
deriving DecidableEq

/-- Filesystem-mutating effects `setup.py`'s `main` can perform, in order. -/
inductive SetupEffect
  | createVenv
  | upgradePip
  | installRequirements
  | copyEnvExample
  | makeDir (path : String)
  | makeCredsDir
  | writeGitignore
  | touchSetupComplete
deriving DecidableEq

/-- The directory list of `setup.py` lines 96-109. -/
def setupDirectories : List String :=
  ["input/sheets", "output/logs", "output/sent", "output/drafts", "output/reports",
   "templates/outreach", "templates/promotional", "templates/follow-up",
   "templates/newsletter", "templates/custom", "samples/signatures", "samples/attachments"]

/-- `setup.py` `main`: check the Python version first (tuple comparison
`sys.version_info < (3, 9)`), then create the venv, upgrade pip, install
requirements (abort on failure), copy `.env.example`, create the directory
tree, the credentials directory, `.gitignore` and the completion marker.
Returns the boolean result together with the ordered filesystem effects. -/
def setupMain (e : SetupEnv) : Bool × List SetupEffect :=
  if e.pyMajor < 3 ∨ (e.pyMajor = 3 ∧ e.pyMinor < 9) then (false, [])
  else
    let eff1 := if e.venvExists then [] else [SetupEffect.createVenv]
    let eff2 := eff1 ++ [SetupEffect.upgradePip]
    if e.requirementsExists ∧ ¬ (e.pipInstallOk = true) then
      (false, eff2 ++ [SetupEffect.installRequirements])
    else
      let eff3 := eff2 ++ (if e.requirementsExists then [SetupEffect.installRequirements] else [])
      let eff4 := eff3 ++
        (if ¬ (e.envExists = true) ∧ e.envExampleExists = true then
          [SetupEffect.copyEnvExample] else [])
      let eff5 := eff4 ++ setupDirectories.map SetupEffect.makeDir
      let eff6 := eff5 ++ [SetupEffect.makeCredsDir]
      let eff7 := eff6 ++ (if e.gitignoreExists then [] else [SetupEffect.writeGitignore])
      (true, eff7 ++ [SetupEffect.touchSetupComplete])

/-- `setup.py` `__main__`: `sys.exit(0 if success else 1)`. -/
def setupExitCode (e : SetupEnv) : Nat :=
  if (setupMain e).1 then 0 else 1

/-! ## `setup_100x.py`: `create_env_file` (embedded from the source) -/

/-- The `config` dict passed to `create_env_file`; absent keys are `none`. -/
structure SetupConfig where
  exaApiKey : Option String
  googleClientId : Option String
  googleClientSecret : Option String
  senderEmail : Option String
  senderName : Option String
deriving DecidableEq

/-- The `# ===...===` separator row of the `.env` template: `"# "` followed by
77 equals signs. -/
def envSeparator : String := "# " ++ String.mk (List.replicate 77 (Char.ofNat 61))

/-- The lines of the `.env` template of `create_env_file` (lines 258-311),
with the `config.get` interpolations. -/
def env_content_lines (cfg : SetupConfig) : List String :=
  [ "# 100X Outreach System Configuration",
    "# Generated by setup_100x.py",
    "",
    envSeparator,
    "# Exa AI Configuration (for people discovery)",
    envSeparator,
    "EXA_API_KEY=" ++ cfg.exaApiKey.getD "your_exa_api_key_here",
    "",
    envSeparator,
    "# Google OAuth2 Credentials (for Gmail)",
    envSeparator,
    "GOOGLE_CLIENT_ID=" ++ cfg.googleClientId.getD "",
    "GOOGLE_CLIENT_SECRET=" ++ cfg.googleClientSecret.getD "",
    "",
    envSeparator,
    "# Sender Configuration",
    envSeparator,
    "SENDER_EMAIL=" ++ cfg.senderEmail.getD "",
    "SENDER_NAME=" ++ cfg.senderName.getD "",
    "",
    envSeparator,
    "# Rate Limits (per user, per day)",
    envSeparator,
    "LINKEDIN_CONNECTIONS_PER_DAY=20",
    "LINKEDIN_MESSAGES_PER_DAY=50",
    "TWITTER_FOLLOWS_PER_DAY=50",
    "TWITTER_DMS_PER_DAY=50",
    "INSTAGRAM_FOLLOWS_PER_DAY=30",
    "INSTAGRAM_DMS_PER_DAY=30",
    "",
    envSeparator,
    "# Workflow Settings",
    envSeparator,
    "DEFAULT_MIN_DELAY_SECONDS=120",
    "DEFAULT_MAX_DELAY_SECONDS=600",
    "WORKFLOW_ACTIVE_HOURS_START=09:00",
    "WORKFLOW_ACTIVE_HOURS_END=18:00",
    "WORKFLOW_TIMEZONE=UTC",
    "",
    envSeparator,
    "# Campaign Settings",
    envSeparator,
    "EMAIL_DELAY_SECONDS=60",
    "MAX_EMAILS_PER_BATCH=50",
    "DAILY_EMAIL_LIMIT=100",
    "DRY_RUN_MODE=false",
    "",
    envSeparator,
    "# Output Configuration",
    envSeparator,
    "OUTPUT_DIR=./output",
    "LOG_DIR=./output/logs",
    "LOG_LEVEL=INFO" ]

/-- The full `.env` template string (the Python f-string ends with a newline). -/
def env_content (cfg : SetupConfig) : String :=
  String.intercalate "\n" (env_content_lines cfg) ++ "\n"

/-- The two files `create_env_file` may touch, `none` meaning absent. -/
structure EnvFS where
  envFile : Option String
  envLocalFile : Option String
deriving DecidableEq

/-- Python truthiness of `config.get('exa_api_key')`: present and non-empty. -/
def exaKeyTruthy (cfg : SetupConfig) : Bool :=
  match cfg.exaApiKey with
  | some s => !(s = "")
  | none => false

/-- `setup_100x.py` `create_env_file`: write the generated template to `.env`
only when no `.env` exists, and write the API key to `.env.local` when the
config carries a truthy `exa_api_key`. -/
def create_env_file (cfg : SetupConfig) (fs : EnvFS) : EnvFS :=
  let fs1 :=
    if fs.envFile = none then { fs with envFile := some (env_content cfg) } else fs
  if exaKeyTruthy cfg then
    { fs1 with envLocalFile := some ("EXA_API_KEY=" ++ cfg.exaApiKey.getD "" ++ "\n") }
  else fs1

/-- Extract the variable name of a `KEY=value` line; comments and blank lines
define nothing. -/
def lineKey (l : String) : Option String :=
  match l.data with
  | [] => none
  | c :: _ =>
    if c = '#' then none
    else if l.data.contains '=' then
      some (String.mk (l.data.takeWhile (fun ch => ch ≠ '=')))
    else none

/-- The configuration keys the generated `.env` defines. -/
def envKeys (cfg : SetupConfig) : List String :=
  (env_content_lines cfg).filterMap lineKey

/-- Does `s` contain `pat` as a contiguous substring (on character lists)? -/
def charsContain (pat : List Char) : List Char → Bool
  | [] => decide (pat = [])
  | c :: t => pat.isPrefixOf (c :: t) || charsContain pat t

/-- Substring test on strings. -/
def strContains (s pat : String) : Bool := charsContain pat.data s.data

/-- The config used by the non-interactive setup path when no key is passed:
`config = {'exa_api_key': ''}`. -/
def defaultConfig : SetupConfig :=
  { exaApiKey := some "", googleClientId := none, googleClientSecret := none,
    senderEmail := none, senderName := none }

/-! ## `setup_100x.py`: MCP configuration (embedded from the source) -/

/-- One MCP server entry (command, args, and the `EXA_API_KEY` env value). -/
structure ServerCfg where
  command : String
  args : List String
  envExaApiKey : String
deriving DecidableEq

/-- The `exa` server entry built by `generate_mcp_config`. -/
def exaServer (exaApiKey : String) : ServerCfg :=
  { command := "npx",
    args := ["-y", "exa-mcp-server",
      "tools=web_search_exa,linkedin_search_exa,company_research_exa,deep_researcher_start,deep_researcher_check,crawling_exa"],
    envExaApiKey := if exaApiKey = "" then "$\x7bEXA_API_KEY\x7d" else exaApiKey }

/-- The MCP configuration object: its `mcpServers` mapping. -/
structure McpConfig where
  mcpServers : List (String × ServerCfg)
deriving DecidableEq

/-- `setup_100x.py` `generate_mcp_config`: a config whose `mcpServers` holds
the single `exa` entry (the `base_dir` argument is unused). -/
def generate_mcp_config (_baseDir : String) (exaApiKey : String) : McpConfig :=
  { mcpServers := [("exa", exaServer exaApiKey)] }

/-- The parsed global `claude_desktop_config.json`: its `mcpServers` mapping
(absent when the file has no such key) and the other top-level entries,
kept opaque. -/
structure DesktopConfig where
  mcpServers : Option (List (String × ServerCfg))
  others : List (String × String)
deriving DecidableEq

/-- The files `save_mcp_config` touches: the local `mcp_config.json`, whether
the Claude config directory exists, and the global settings file (`none` =
absent, `some none` = present but unparseable). -/
structure McpFS where
  mcpConfigJson : Option McpConfig
  claudeDirExists : Bool
  desktopConfig : Option (Option DesktopConfig)
deriving DecidableEq

/-- Python `dict` assignment `m[k] = v`: replace in place or append. -/
def setKey {α : Type} (m : List (String × α)) (k : String) (v : α) : List (String × α) :=
  if m.any (fun p => p.1 = k) then
    m.map (fun p => if p.1 = k then (k, v) else p)
  else m ++ [(k, v)]

/-- Python `dict.update`: apply every assignment of `updates` to `m`. -/
def dictUpdate {α : Type} (m updates : List (String × α)) : List (String × α) :=
  updates.foldl (fun acc kv => setKey acc kv.1 kv.2) m

/-- First value bound to `k` in an association list. -/
def lookupKey {α : Type} (m : List (String × α)) (k : String) : Option α :=
  match m with
  | [] => none
  | (k', v) :: rest => if k' = k then some v else lookupKey rest k

/-- `setup_100x.py` `save_mcp_config`: always write the generated config to the
local `mcp_config.json`; then, if the Claude config directory exists, read the
global settings (absent or unparseable files count as `{}`), ensure a
`mcpServers` mapping, merge the generated servers into it with `dict.update`,
and write it back. -/
def save_mcp_config (config : McpConfig) (st : McpFS) : McpFS :=
  let st1 := { st with mcpConfigJson := some config }
  if st.claudeDirExists then
    let existing : DesktopConfig :=
      match st.desktopConfig with
      | some (some c) => c
      | _ => { mcpServers := none, others := [] }
    let servers := existing.mcpServers.getD []
    let merged := dictUpdate servers config.mcpServers
    { st1 with desktopConfig := some (some { existing with mcpServers := some merged }) }
  else st1

/-! ## Concrete sample data for witness instantiations -/

/-- A limit profile with the LinkedIn-style values of the generated `.env`. -/
def sampleProfile : LimitProfile :=
  { dailyCeiling := [("connect", 20), ("view_profile", 100)],
    hourlyBurstCeiling := 10,
    minDelaySeconds := 120, maxDelaySeconds := 600,
    cooldownSeconds := 1800,
    windowStartHour := 9, windowEndHour := 18 }

/-- A fresh admission record, last seen at 10:00 of day 0. -/
def sampleRecord : AdmissionRecord :=
  { dailyCounts := [], hourlyCounts := [], cooldownExpiry := none,
    lastAction := none, lastSeenDay := 0, lastSeenHour := 10, history := [] }

/-- A record whose hourly total has reached `sampleProfile`'s burst ceiling. -/
def burstRecord : AdmissionRecord :=
  { sampleRecord with hourlyCounts := [("connect", 6), ("view_profile", 4)] }

/-- A one-phase campaign whose only phase is already completed. -/
def doneCampaign : Campaign :=
  { id := "c1", creator := "u1", status := CStatus.running, discoveryQuery := none,
    phases := [{ platform := "linkedin", actionKind := "connect", template := "hi",
                 condition := none, minDelaySeconds := 120, maxDelaySeconds := 600,
                 status := PhaseStatus.completed, generated := true,
                 startTime := some 0, endTime := some 5,
                 completedCount := 1, failedCount := 0,
                 actions := [{ id := "t1", kind := "connect", platform := "linkedin",
                               targetId := "t1", message := "hi",
                               status := ActionStatus.completed, retryCount := 0 }] }],
    targets := [{ id := "t1", name := "T One", handles := [("linkedin", "t1")] }],
    actionsCompleted := 1, actionsFailed := 0 }

/-- A minimal running campaign. -/
def runningCampaign : Campaign :=
  { id := "c2", creator := "u1", status := CStatus.running, discoveryQuery := some "q",
    phases := [], targets := [], actionsCompleted := 0, actionsFailed := 0 }

/-- A sample global desktop configuration with a non-`exa` MCP server. -/
def sampleDesktop : DesktopConfig :=
  { mcpServers := some [("other", { command := "node", args := ["srv.js"], envExaApiKey := "" })],
    others := [("theme", "dark")] }

/-- A sample filesystem state for `save_mcp_config`. -/
def sampleMcpFS : McpFS :=
  { mcpConfigJson := none, claudeDirExists := true, desktopConfig := some (some sampleDesktop) }

/-- Modelled from the spec: the claim that the generated configuration defines,
for one platform, all five limit-profile values — a daily ceiling per action
kind, an hourly burst ceiling, minimum and maximum pacing delays, a cooldown
duration, and an allowed hour-of-day window.  A value counts as defined when
some generated key's name carries the corresponding vocabulary (the platform
name with `PER_DAY`; `BURST`, `HOURLY` or `PER_HOUR`; `MIN_DELAY`/`MAX_DELAY`;
`COOLDOWN`; `HOURS_START`/`HOURS_END`). -/
def definesAllProfileValues (keys : List String) (platform : String) : Prop :=
  (∃ k ∈ keys, (strContains k platform && strContains k "PER_DAY") = true) ∧
  (∃ k ∈ keys, (strContains k "BURST" || strContains k "HOURLY" || strContains k "PER_HOUR")
      = true) ∧
  (∃ k ∈ keys, strContains k "MIN_DELAY" = true) ∧
  (∃ k ∈ keys, strContains k "MAX_DELAY" = true) ∧
  (∃ k ∈ keys, strContains k "COOLDOWN" = true) ∧
  (∃ k ∈ keys, strContains k "HOURS_START" = true) ∧
  (∃ k ∈ keys, strContains k "HOURS_END" = true)

/-! ## Helper lemmas -/

theorem lookupKey_cons {α : Type} (k0 : String) (v0 : α) (rest : List (String × α))
    (k : String) :
    lookupKey ((k0, v0) :: rest) k = if k0 = k then some v0 else lookupKey rest k := rfl

theorem lookupKey_append {α : Type} (m1 m2 : List (String × α)) (k : String)
    (h : lookupKey m1 k = none) : lookupKey (m1 ++ m2) k = lookupKey m2 k := by
  induction m1 with
  | nil => rfl
  | cons p rest ih =>
    obtain ⟨k0, v0⟩ := p
    rw [lookupKey_cons] at h
    by_cases h0 : k0 = k
    · rw [if_pos h0] at h
      exact absurd h (by simp)
    · rw [if_neg h0] at h
      rw [List.cons_append, lookupKey_cons, if_neg h0]
      exact ih h

theorem lookupKey_none_of_not_any {α : Type} (m : List (String × α)) (k : String)
    (h : m.any (fun p => p.1 = k) = false) : lookupKey m k = none := by
  induction m with
  | nil => rfl
  | cons p rest ih =>
    obtain ⟨k0, v0⟩ := p
    rw [List.any_cons] at h
    by_cases h0 : k0 = k
    · simp [h0] at h
    · simp only [h0] at h
      rw [lookupKey_cons, if_neg h0]
      exact ih (by simpa using h)

theorem lookupKey_map_replace_other {α : Type} (m : List (String × α)) (k k' : String)
    (v : α) (h : k' ≠ k) :
    lookupKey (m.map (fun p => if p.1 = k then (k, v) else p)) k' = lookupKey m k' := by
  induction m with
  | nil => rfl
  | cons p rest ih =>
    obtain ⟨k0, v0⟩ := p
    rw [List.map_cons]
    by_cases h0 : k0 = k
    · have he : (if ((k0, v0) : String × α).1 = k then (k, v) else (k0, v0)) = (k, v) := by
        simp [h0]
      rw [he, lookupKey_cons, lookupKey_cons, if_neg (Ne.symm h), if_neg, ih]
      rw [h0]
      exact Ne.symm h
    · have he : (if ((k0, v0) : String × α).1 = k then (k, v) else (k0, v0)) = (k0, v0) := by
        simp [h0]
      rw [he, lookupKey_cons, lookupKey_cons, ih]

theorem lookupKey_map_replace_self {α : Type} (m : List (String × α)) (k : String) (v : α)
    (h : m.any (fun p => p.1 = k) = true) :
    lookupKey (m.map (fun p => if p.1 = k then (k, v) else p)) k = some v := by
  induction m with
  | nil => simp at h
  | cons p rest ih =>
    obtain ⟨k0, v0⟩ := p
    rw [List.map_cons]
    by_cases h0 : k0 = k
    · have he : (if ((k0, v0) : String × α).1 = k then (k, v) else (k0, v0)) = (k, v) := by
        simp [h0]
      rw [he, lookupKey_cons, if_pos rfl]
    · have he : (if ((k0, v0) : String × α).1 = k then (k, v) else (k0, v0)) = (k0, v0) := by
        simp [h0]
      rw [List.any_cons] at h
      rw [he, lookupKey_cons, if_neg h0]
      exact ih (by simpa [h0] using h)

theorem lookupKey_append_single_other {α : Type} (m : List (String × α)) (k k' : String)
    (v : α) (h : k' ≠ k) : lookupKey (m ++ [(k, v)]) k' = lookupKey m k' := by
  induction m with
  | nil => rw [List.nil_append, lookupKey_cons, if_neg (Ne.symm h)]
  | cons p rest ih =>
    obtain ⟨k0, v0⟩ := p
    rw [List.cons_append, lookupKey_cons, lookupKey_cons]
    by_cases h0 : k0 = k'
    · rw [if_pos h0, if_pos h0]
    · rw [if_neg h0, if_neg h0, ih]

theorem bool_eq_false_of_not {b : Bool} (h : ¬ b = true) : b = false := by
  cases b with
  | false => rfl
  | true => exact absurd rfl h

theorem lookupKey_setKey_self {α : Type} (m : List (String × α)) (k : String) (v : α) :
    lookupKey (setKey m k v) k = some v := by
  unfold setKey
  by_cases h : m.any (fun p => p.1 = k)
  · rw [if_pos h]
    exact lookupKey_map_replace_self m k v h
  · rw [if_neg h]
    rw [lookupKey_append _ _ _ (lookupKey_none_of_not_any m k (bool_eq_false_of_not h))]
    rw [lookupKey_cons, if_pos rfl]

theorem lookupKey_setKey_other {α : Type} (m : List (String × α)) (k k' : String) (v : α)
    (h : k' ≠ k) : lookupKey (setKey m k v) k' = lookupKey m k' := by
  unfold setKey
  by_cases hm : m.any (fun p => p.1 = k)
  · rw [if_pos hm]
    exact lookupKey_map_replace_other m k k' v h
  · rw [if_neg hm]
    exact lookupKey_append_single_other m k k' v h

theorem getCount_cons (k0 : String) (n0 : Nat) (rest : CountTable) (k : String) :
    getCount ((k0, n0) :: rest) k = if k0 = k then n0 else getCount rest k := rfl

theorem incCount_cons (k0 : String) (n0 : Nat) (rest : CountTable) (k : String) :
    incCount ((k0, n0) :: rest) k =
      if k0 = k then (k0, n0 + 1) :: rest else (k0, n0) :: incCount rest k := rfl

theorem getCount_incCount_self (t : CountTable) (kind : String) :
    getCount (incCount t kind) kind = getCount t kind + 1 := by
  induction t with
  | nil => simp [incCount, getCount]
  | cons p rest ih =>
    obtain ⟨k, n⟩ := p
    by_cases hk : k = kind
    · rw [incCount_cons, if_pos hk, getCount_cons, if_pos hk, getCount_cons, if_pos hk]
    · rw [incCount_cons, if_neg hk, getCount_cons, if_neg hk, getCount_cons, if_neg hk, ih]

theorem rollover_eq_self (r : AdmissionRecord) (now : Nat)
    (hday : r.lastSeenDay = dayIndex now) (hhour : r.lastSeenHour = hourIndex now) :
    rollover r now = r := by
  unfold rollover rolloverDay rolloverHour
  rw [if_pos hday, if_pos hhour]

theorem rollover_cooldownExpiry (r : AdmissionRecord) (now : Nat) :
    (rollover r now).cooldownExpiry = r.cooldownExpiry := by
  unfold rollover rolloverDay rolloverHour
  split_ifs <;> rfl

/-! ## C8: `setup.py` version gate -/

/-- C8: when the interpreter version is below 3.9, `setup.py`'s `main` returns
`False` with no filesystem effect at all — no virtual environment, directory or
file is created — and the process exits with status 1. -/
theorem setup_version_gate (e : SetupEnv)
    (h : e.pyMajor < 3 ∨ (e.pyMajor = 3 ∧ e.pyMinor < 9)) :
    setupMain e = (false, []) ∧ setupExitCode e = 1 := by
  constructor
  · unfold setupMain
    rw [if_pos h]
  · unfold setupExitCode setupMain
    rw [if_pos h]
    rfl

/-- Witness for C8 at Python 3.8. -/
theorem setup_version_gate_witness :
    setupMain { pyMajor := 3, pyMinor := 8, venvExists := false, requirementsExists := true,
                pipInstallOk := true, envExists := false, envExampleExists := true,
                gitignoreExists := false } = (false, []) ∧
    setupExitCode { pyMajor := 3, pyMinor := 8, venvExists := false, requirementsExists := true,
                    pipInstallOk := true, envExists := false, envExampleExists := true,
                    gitignoreExists := false } = 1 :=
  setup_version_gate _ (Or.inr ⟨rfl, by decide⟩)

/-! ## C9: `create_env_file` preserves an existing `.env` -/

/-- C9: if a `.env` file already exists, `create_env_file` leaves its contents
byte-for-byte unchanged; the generated template is written only when no `.env`
exists. -/
theorem create_env_file_preserves_existing (cfg : SetupConfig) (fs : EnvFS) (s : String)
    (h : fs.envFile = some s) :
    (create_env_file cfg fs).envFile = some s ∧
    (∀ fs2 : EnvFS, fs2.envFile = none →
      (create_env_file cfg fs2).envFile = some (env_content cfg)) := by
  constructor
  · unfold create_env_file
    split_ifs <;> simp_all
  · intro fs2 h2
    unfold create_env_file
    split_ifs <;> simp_all

/-- Witness for C9: a pre-existing `.env` holding `"KEEP"` survives. -/
theorem create_env_file_preserves_existing_witness :
    (create_env_file defaultConfig
        { envFile := some "KEEP", envLocalFile := none }).envFile = some "KEEP" :=
  (create_env_file_preserves_existing defaultConfig
    { envFile := some "KEEP", envLocalFile := none } "KEEP" rfl).1

/-! ## C6: the generated `.env` does not cover the full limit profile -/

/-- Counterexample for C6: the configuration generated by `create_env_file`
does not define all five limit-profile values for the LinkedIn platform — in
particular no generated key names an hourly burst ceiling or a cooldown
duration. -/
theorem env_profile_counterexample :
    ¬ definesAllProfileValues (envKeys defaultConfig) "LINKEDIN" := by
  unfold definesAllProfileValues
  decide

/-- C6 (amended): the generated configuration defines per-platform daily
ceilings (exactly two action kinds per platform), a global default min/max
pacing delay, and a global hour-of-day window with timezone — but no hourly
burst ceiling and no cooldown duration for any platform. -/
theorem env_profile_partial :
    (∀ p ∈ (["LINKEDIN", "TWITTER", "INSTAGRAM"] : List String),
      (envKeys defaultConfig).countP
        (fun k => strContains k p && strContains k "PER_DAY") = 2) ∧
    "DEFAULT_MIN_DELAY_SECONDS" ∈ envKeys defaultConfig ∧
    "DEFAULT_MAX_DELAY_SECONDS" ∈ envKeys defaultConfig ∧
    "WORKFLOW_ACTIVE_HOURS_START" ∈ envKeys defaultConfig ∧
    "WORKFLOW_ACTIVE_HOURS_END" ∈ envKeys defaultConfig ∧
    "WORKFLOW_TIMEZONE" ∈ envKeys defaultConfig ∧
    (∀ k ∈ envKeys defaultConfig,
      strContains k "COOLDOWN" = false ∧ strContains k "BURST" = false ∧
      strContains k "HOURLY" = false ∧ strContains k "PER_HOUR" = false) := by decide

/-! ## C10: `save_mcp_config` merges without clobbering -/

/-- C10: `save_mcp_config` always writes the full generated configuration to
the local `mcp_config.json`; when the global config directory exists, the
pre-existing `claude_desktop_config.json` keeps every `mcpServers` entry under
keys other than `"exa"` unchanged (and every other top-level entry), while the
`"exa"` entry is added or replaced. -/
theorem save_mcp_config_merge (key : String) (st : McpFS) (c : DesktopConfig)
    (m : List (String × ServerCfg))
    (hc : st.desktopConfig = some (some c)) (hm : c.mcpServers = some m) :
    (∀ st2 : McpFS,
      (save_mcp_config (generate_mcp_config "." key) st2).mcpConfigJson
        = some (generate_mcp_config "." key)) ∧
    (st.claudeDirExists = true →
      (save_mcp_config (generate_mcp_config "." key) st).desktopConfig
        = some (some { c with mcpServers := some (setKey m "exa" (exaServer key)) }) ∧
      (∀ k, k ≠ "exa" →
        lookupKey (setKey m "exa" (exaServer key)) k = lookupKey m k) ∧
      lookupKey (setKey m "exa" (exaServer key)) "exa" = some (exaServer key)) := by
  constructor
  · intro st2
    unfold save_mcp_config
    split_ifs <;> rfl
  · intro hdir
    refine ⟨?_, fun k hk => lookupKey_setKey_other m "exa" k (exaServer key) hk,
      lookupKey_setKey_self m "exa" (exaServer key)⟩
    unfold save_mcp_config
    simp only [hc, hm, hdir, if_pos]
    rfl

/-- Witness for C10 on a desktop config holding one non-`exa` server. -/
theorem save_mcp_config_merge_witness :
    (save_mcp_config (generate_mcp_config "." "K") sampleMcpFS).mcpConfigJson
      = some (generate_mcp_config "." "K") ∧
    (save_mcp_config (generate_mcp_config "." "K") sampleMcpFS).desktopConfig
      = some (some { sampleDesktop with mcpServers := some (setKey
          [("other", { command := "node", args := ["srv.js"], envExaApiKey := "" })]
          "exa" (exaServer "K")) }) := by
  have h := save_mcp_config_merge "K" sampleMcpFS sampleDesktop
    [("other", { command := "node", args := ["srv.js"], envExaApiKey := "" })] rfl rfl
  exact ⟨h.1 sampleMcpFS, (h.2 rfl).1⟩

/-! ## C1: the order of the `CanProceed` denial checks -/

/-- C1: for a record whose counters are current for the day and hour of `now`,
`canProceed` settles its four denial conditions in order — an active cooldown
denies with the remaining seconds; otherwise being outside the hour window
denies with the seconds until it reopens; otherwise a reached per-kind daily
ceiling denies with the seconds until next local midnight; otherwise a reached
hourly burst ceiling (summed over all kinds) sets cooldown-expiry to `now`
plus the cooldown duration and denies with that duration; and otherwise the
action is allowed with zero wait. -/
theorem canProceed_check_order (p : LimitProfile) (r : AdmissionRecord) (kind : String)
    (now : Nat) (hday : r.lastSeenDay = dayIndex now) (hhour : r.lastSeenHour = hourIndex now) :
    (cooldownActive r now = true →
      canProceed p r kind now =
        ({ allowed := false, reason := "cooldown active",
           waitSeconds := cooldownRemaining r now }, r)) ∧
    (cooldownActive r now = false → inWindow p now = false →
      canProceed p r kind now =
        ({ allowed := false, reason := "outside allowed hours",
           waitSeconds := secondsUntilWindow p now }, r)) ∧
    (cooldownActive r now = false → inWindow p now = true →
      dailyCeilingFor p kind ≤ getCount r.dailyCounts kind →
      canProceed p r kind now =
        ({ allowed := false, reason := "daily limit reached",
           waitSeconds := secondsUntilMidnight now }, r)) ∧
    (cooldownActive r now = false → inWindow p now = true →
      getCount r.dailyCounts kind < dailyCeilingFor p kind →
      p.hourlyBurstCeiling ≤ sumCounts r.hourlyCounts →
      canProceed p r kind now =
        ({ allowed := false, reason := "hourly burst limit reached",
           waitSeconds := p.cooldownSeconds },
         { r with cooldownExpiry := some (now + p.cooldownSeconds) })) ∧
    (cooldownActive r now = false → inWindow p now = true →
      getCount r.dailyCounts kind < dailyCeilingFor p kind →
      sumCounts r.hourlyCounts < p.hourlyBurstCeiling →
      canProceed p r kind now = ({ allowed := true, reason := "", waitSeconds := 0 }, r)) := by
  have hr : rollover r now = r := rollover_eq_self r now hday hhour
  unfold canProceed
  rw [hr]
  refine ⟨fun ha => ?_, fun ha hw => ?_, fun ha hw hd => ?_,
    fun ha hw hd hb => ?_, fun ha hw hd hb => ?_⟩
  · unfold canProceedChecks
    rw [if_pos (by rw [ha])]
  · unfold canProceedChecks
    rw [if_neg (by rw [ha]; exact Bool.false_ne_true), if_pos (by rw [hw]; rfl)]
  · unfold canProceedChecks
    rw [if_neg (by rw [ha]; exact Bool.false_ne_true),
        if_neg (by rw [hw]; simp), if_pos hd]
  · unfold canProceedChecks
    rw [if_neg (by rw [ha]; exact Bool.false_ne_true),
        if_neg (by rw [hw]; simp), if_neg (Nat.not_le.mpr hd), if_pos hb]
  · unfold canProceedChecks
    rw [if_neg (by rw [ha]; exact Bool.false_ne_true),
        if_neg (by rw [hw]; simp), if_neg (Nat.not_le.mpr hd),
        if_neg (Nat.not_le.mpr hb)]

/-- Witness for C1: with a fresh record at 10:00 the final "allow" branch
fires. -/
theorem canProceed_check_order_witness :
    canProceed sampleProfile sampleRecord "connect" 36000
      = ({ allowed := true, reason := "", waitSeconds := 0 }, sampleRecord) :=
  (canProceed_check_order sampleProfile sampleRecord "connect" 36000 rfl rfl).2.2.2.2
    rfl rfl (by decide) (by decide)

/-! ## C2: a burst trip denies everything until cooldown expiry -/

theorem cooldownActive_of_expiry {r : AdmissionRecord} {e t : Nat}
    (h : r.cooldownExpiry = some e) (ht : t < e) : cooldownActive r t = true := by
  unfold cooldownActive
  rw [h]
  simpa using ht

theorem cooldownRemaining_of_expiry {r : AdmissionRecord} {e : Nat} (t : Nat)
    (h : r.cooldownExpiry = some e) : cooldownRemaining r t = e - t := by
  unfold cooldownRemaining
  rw [h]

/-- C2: whenever the hourly counts summed over all action kinds have reached
the burst ceiling, `canProceed` denies (whatever the kind); if the earlier
checks pass so that the burst check is the one that fires, the returned record
carries cooldown-expiry `now + cooldown duration`, and on that record
`canProceed` denies every action kind at every time before the expiry with the
remaining cooldown seconds — regardless of the kind's daily quota. -/
theorem burst_trip_cooldown (p : LimitProfile) (r : AdmissionRecord) (kind : String)
    (now : Nat) (hsum : p.hourlyBurstCeiling ≤ sumCounts (rollover r now).hourlyCounts) :
    ((canProceed p r kind now).1.allowed = false) ∧
    (cooldownActive (rollover r now) now = false → inWindow p now = true →
      getCount (rollover r now).dailyCounts kind < dailyCeilingFor p kind →
      (canProceed p r kind now).2.cooldownExpiry = some (now + p.cooldownSeconds) ∧
      ∀ (kind2 : String) (t : Nat), t < now + p.cooldownSeconds →
        (canProceed p (canProceed p r kind now).2 kind2 t).1 =
          { allowed := false, reason := "cooldown active",
            waitSeconds := (now + p.cooldownSeconds) - t }) := by
  constructor
  · unfold canProceed canProceedChecks
    split_ifs <;> rfl
  · intro hcd hwin hdaily
    have heq : canProceed p r kind now =
        ({ allowed := false, reason := "hourly burst limit reached",
           waitSeconds := p.cooldownSeconds },
         { rollover r now with cooldownExpiry := some (now + p.cooldownSeconds) }) := by
      unfold canProceed canProceedChecks
      rw [if_neg (by rw [hcd]; exact Bool.false_ne_true),
          if_neg (by rw [hwin]; simp),
          if_neg (Nat.not_le.mpr hdaily), if_pos hsum]
    rw [heq]
    refine ⟨rfl, ?_⟩
    intro kind2 t ht
    have hexp : (rollover { rollover r now with
        cooldownExpiry := some (now + p.cooldownSeconds) } t).cooldownExpiry
        = some (now + p.cooldownSeconds) := by
      rw [rollover_cooldownExpiry]
    unfold canProceed canProceedChecks
    rw [if_pos (cooldownActive_of_expiry hexp ht), cooldownRemaining_of_expiry t hexp]

/-- Witness for C2: a record at the burst ceiling trips at 10:00, and 1000
seconds later another kind is still denied with the remaining 800 seconds. -/
theorem burst_trip_cooldown_witness :
    (canProceed sampleProfile burstRecord "connect" 36000).1.allowed = false ∧
    (canProceed sampleProfile burstRecord "connect" 36000).2.cooldownExpiry = some 37800 ∧
    (canProceed sampleProfile
        (canProceed sampleProfile burstRecord "connect" 36000).2 "view_profile" 37000).1 =
      { allowed := false, reason := "cooldown active", waitSeconds := 800 } := by
  have h := burst_trip_cooldown sampleProfile burstRecord "connect" 36000 (by decide)
  have h2 := h.2 (by decide) (by decide) (by decide)
  exact ⟨h.1, h2.1, h2.2 "view_profile" 37000 (by decide)⟩

/-! ## C3: `RecordAction` counts failures like successes -/

/-- C3: for a record whose counters are current for the day and hour of `now`,
`recordAction` increments the per-kind daily and hourly counters by exactly one
and stamps the last-action time — and the resulting counters, last-action
timestamp and remaining limits are identical whatever the success flag. -/
theorem recordAction_increments (p : LimitProfile) (r : AdmissionRecord)
    (kind target details : String) (now : Nat) (success : Bool)
    (hday : r.lastSeenDay = dayIndex now) (hhour : r.lastSeenHour = hourIndex now) :
    getCount (recordAction r kind target now success details).dailyCounts kind
      = getCount r.dailyCounts kind + 1 ∧
    getCount (recordAction r kind target now success details).hourlyCounts kind
      = getCount r.hourlyCounts kind + 1 ∧
    (recordAction r kind target now success details).lastAction = some now ∧
    (∀ s2 : Bool,
      (recordAction r kind target now success details).dailyCounts
        = (recordAction r kind target now s2 details).dailyCounts ∧
      (recordAction r kind target now success details).hourlyCounts
        = (recordAction r kind target now s2 details).hourlyCounts ∧
      (recordAction r kind target now success details).lastAction
        = (recordAction r kind target now s2 details).lastAction ∧
      remainingLimits p (recordAction r kind target now success details)
        = remainingLimits p (recordAction r kind target now s2 details)) := by
  have hr : rollover r now = r := rollover_eq_self r now hday hhour
  unfold recordAction
  rw [hr]
  refine ⟨getCount_incCount_self _ _, getCount_incCount_self _ _, rfl, ?_⟩
  intro s2
  exact ⟨rfl, rfl, rfl, rfl⟩

/-- Witness for C3 on a fresh record: the connect counter goes to one, and a
failed attempt consumes exactly the same quota as a successful one. -/
theorem recordAction_increments_witness :
    getCount (recordAction sampleRecord "connect" "t1" 36000 true "ok").dailyCounts "connect"
      = getCount sampleRecord.dailyCounts "connect" + 1 ∧
    (recordAction sampleRecord "connect" "t1" 36000 true "ok").dailyCounts
      = (recordAction sampleRecord "connect" "t1" 36000 false "ok").dailyCounts ∧
    remainingLimits sampleProfile (recordAction sampleRecord "connect" "t1" 36000 true "ok")
      = remainingLimits sampleProfile (recordAction sampleRecord "connect" "t1" 36000 false "ok") := by
  have h := recordAction_increments sampleProfile sampleRecord "connect" "t1" "ok" 36000 true
    rfl rfl
  exact ⟨h.1, (h.2.2.2 false).1, (h.2.2.2 false).2.2.2⟩

/-! ## C4: phase completion inside `GetNextAction` -/

theorem scanPhases_all_completed (targets : List Target) (now : Nat) (prev : Option Phase)
    (phs : List Phase) (h : ∀ ph ∈ phs, ph.status = PhaseStatus.completed) :
    scanPhases targets now prev phs = (phs, none) := by
  induction phs generalizing prev with
  | nil => rfl
  | cons ph rest ih =>
    have hph := h ph (List.mem_cons_self ph rest)
    have hrest : ∀ q ∈ rest, q.status = PhaseStatus.completed :=
      fun q hq => h q (List.mem_cons_of_mem ph hq)
    unfold scanPhases
    rw [if_pos hph, ih (some ph) hrest]

/-- C4: when every phase of a campaign is completed, `getNextAction` marks the
campaign completed and returns `none` (leaving the phases as they are); and
whenever the scan reaches a non-completed phase that has no pending action
left, that phase is marked completed with end timestamp `now` before the scan
continues with the remaining phases. -/
theorem getNextAction_completion (c : Campaign) (now : Nat)
    (hall : ∀ ph ∈ c.phases, ph.status = PhaseStatus.completed) :
    getNextAction c now = ({ c with status := CStatus.completed }, none) ∧
    (∀ (prev : Option Phase) (ph : Phase) (rest : List Phase),
      ph.status ≠ PhaseStatus.completed →
      (markActive prev ph c.targets now).actions.find?
          (fun a => a.status = ActionStatus.pending) = none →
      scanPhases c.targets now prev (ph :: rest) =
        (completePhase (markActive prev ph c.targets now) now ::
           (scanPhases c.targets now
             (some (completePhase (markActive prev ph c.targets now) now)) rest).1,
         (scanPhases c.targets now
           (some (completePhase (markActive prev ph c.targets now) now)) rest).2) ∧
      (completePhase (markActive prev ph c.targets now) now).status
          = PhaseStatus.completed ∧
      (completePhase (markActive prev ph c.targets now) now).endTime = some now) := by
  constructor
  · unfold getNextAction
    rw [scanPhases_all_completed c.targets now none c.phases hall]
  · intro prev ph rest hne hfind
    refine ⟨?_, rfl, rfl⟩
    conv_lhs => rw [scanPhases]
    rw [if_neg hne, hfind]

/-- Witness for C4 on a one-phase campaign whose phase is completed. -/
theorem getNextAction_completion_witness :
    getNextAction doneCampaign 0 = ({ doneCampaign with status := CStatus.completed }, none) :=
  (getNextAction_completion doneCampaign 0 (by decide)).1

/-! ## C5: the campaign lifecycle only moves forward -/

theorem getNextAction_status (c : Campaign) (now : Nat) :
    (getNextAction c now).1.status = c.status ∨
    (getNextAction c now).1.status = CStatus.completed := by
  unfold getNextAction
  cases hs : (scanPhases c.targets now none c.phases).2 with
  | some a => exact Or.inl rfl
  | none => exact Or.inr rfl

theorem recordActionResult_status (c : Campaign) (aid : String) (success : Bool)
    (c' : Campaign) (h : recordActionResult c aid success = some c') :
    c'.status = c.status := by
  unfold recordActionResult at h
  split_ifs at h
  all_goals (cases h; rfl)

/-- C5: every accepted orchestrator operation moves the campaign's status along
the forward lifecycle graph (or leaves it unchanged), with `running ⇄ paused`
the only cycle — the rank of the status never decreases — and `pause` is
accepted exactly from `running` and changes nothing but the status (no phase or
action state). -/
theorem lifecycle_forward (op : Op) (c c' : Campaign) (h : step op c = some c') :
    statusRank c.status ≤ statusRank c'.status ∧
    (c'.status = c.status ∨ forwardEdge c.status c'.status = true) ∧
    (op = Op.pause → c.status = CStatus.running ∧ c' = { c with status := CStatus.paused }) := by
  cases op with
  | submit =>
    simp only [step] at h
    split_ifs at h with hc
    cases h
    refine ⟨?_, Or.inr ?_, fun hop => Op.noConfusion hop⟩
    · rw [hc.1]
      show statusRank CStatus.draft ≤ statusRank CStatus.pendingApproval
      decide
    · rw [hc.1]
      show forwardEdge CStatus.draft CStatus.pendingApproval = true
      rfl
  | approve approver =>
    simp only [step] at h
    split_ifs at h with hc
    cases h
    refine ⟨?_, Or.inr ?_, fun hop => Op.noConfusion hop⟩
    · rw [hc.1]
      show statusRank CStatus.pendingApproval ≤ statusRank CStatus.approved
      decide
    · rw [hc.1]
      show forwardEdge CStatus.pendingApproval CStatus.approved = true
      rfl
  | start =>
    simp only [step] at h
    split_ifs at h with hc
    cases h
    refine ⟨?_, Or.inr ?_, fun hop => Op.noConfusion hop⟩
    · rw [hc]
      show statusRank CStatus.approved ≤ statusRank CStatus.running
      decide
    · rw [hc]
      show forwardEdge CStatus.approved CStatus.running = true
      rfl
  | pause =>
    simp only [step] at h
    split_ifs at h with hc
    cases h
    refine ⟨?_, Or.inr ?_, fun _ => ⟨hc, rfl⟩⟩
    · rw [hc]
      show statusRank CStatus.running ≤ statusRank CStatus.paused
      decide
    · rw [hc]
      show forwardEdge CStatus.running CStatus.paused = true
      rfl
  | resume =>
    simp only [step] at h
    split_ifs at h with hc
    cases h
    refine ⟨?_, Or.inr ?_, fun hop => Op.noConfusion hop⟩
    · rw [hc]
      show statusRank CStatus.paused ≤ statusRank CStatus.running
      decide
    · rw [hc]
      show forwardEdge CStatus.paused CStatus.running = true
      rfl
  | cancel =>
    simp only [step] at h
    split_ifs at h with hc
    cases h
    refine ⟨?_, Or.inr ?_, fun hop => Op.noConfusion hop⟩
    · rcases hc with hc | hc <;> rw [hc]
      · show statusRank CStatus.running ≤ statusRank CStatus.cancelled
        decide
      · show statusRank CStatus.paused ≤ statusRank CStatus.cancelled
        decide
    · rcases hc with hc | hc <;> rw [hc]
      · show forwardEdge CStatus.running CStatus.cancelled = true
        rfl
      · show forwardEdge CStatus.paused CStatus.cancelled = true
        rfl
  | markFailed =>
    simp only [step] at h
    split_ifs at h with ht
    cases h
    refine ⟨?_, Or.inr ?_, fun hop => Op.noConfusion hop⟩
    · have h4 : statusRank ({ c with status := CStatus.failed } : Campaign).status = 4 := rfl
      rw [h4]
      cases hs : c.status <;> decide
    · cases hs : c.status <;> rw [hs] at ht <;>
        first
          | exact absurd rfl ht
          | rfl
  | nextAction now =>
    simp only [step] at h
    split_ifs at h with hr
    cases h
    rcases getNextAction_status c now with hst | hst
    · exact ⟨by rw [hst], Or.inl hst, fun hop => Op.noConfusion hop⟩
    · refine ⟨?_, Or.inr ?_, fun hop => Op.noConfusion hop⟩
      · rw [hst, hr]
        show statusRank CStatus.running ≤ statusRank CStatus.completed
        decide
      · rw [hst, hr]
        show forwardEdge CStatus.running CStatus.completed = true
        rfl
  | recordResult aid success =>
    simp only [step] at h
    split_ifs at h with hr
    have hst := recordActionResult_status c aid success c' h
    exact ⟨by rw [hst], Or.inl hst, fun hop => Op.noConfusion hop⟩

/-- Witness for C5: pausing a running campaign. -/
theorem lifecycle_forward_witness :
    statusRank runningCampaign.status
        ≤ statusRank ({ runningCampaign with status := CStatus.paused } : Campaign).status ∧
    (({ runningCampaign with status := CStatus.paused } : Campaign).status
          = runningCampaign.status ∨
      forwardEdge runningCampaign.status
        ({ runningCampaign with status := CStatus.paused } : Campaign).status = true) ∧
    (Op.pause = Op.pause → runningCampaign.status = CStatus.running ∧
      ({ runningCampaign with status := CStatus.paused } : Campaign)
        = { runningCampaign with status := CStatus.paused }) :=
  lifecycle_forward Op.pause runningCampaign { runningCampaign with status := CStatus.paused } rfl

/-! ## C7: `CalculateDelay` and the configured bounds -/

/-- Counterexample for C7: with the generated default bounds (120–600s), a unit
time-of-day multiplier and the maximal 10% jitter — all within the spec's
procedure — a draw at the upper bound yields 660 seconds, outside
`[min, max]`: the multiplier/jitter stage is applied after clamping and can
push the result past the configured maximum. -/
theorem calculateDelay_counterexample :
    ((0 : ℚ) ≤ 1/10 ∧ (1/10 : ℚ) ≤ 1/10) ∧
    calculateDelay 120 600 (fun _ => 1) TimeBucket.normalHours 600 (1/10) = 660 ∧
    ¬ (calculateDelay 120 600 (fun _ => 1) TimeBucket.normalHours 600 (1/10) ≤ 600) := by
  have hv : calculateDelay 120 600 (fun _ => 1) TimeBucket.normalHours 600 (1/10) = 660 := by
    unfold calculateDelay clampQ
    rw [min_self, max_eq_right (by norm_num : (120:ℚ) ≤ 600)]
    norm_num
  refine ⟨⟨by norm_num, le_refl _⟩, hv, ?_⟩
  rw [hv]
  norm_num

/-- C7 (amended): the clamp stage keeps the draw inside `[min, max]`, so the
returned delay is at least the configured minimum; after the time-of-day
multiplier (at least one) and the 0–10% jitter it is at most the configured
maximum times the bucket's multiplier times 11/10 — with a unit multiplier and
zero jitter it lies inside `[min, max]` itself. -/
theorem calculateDelay_bounds (minD maxD : ℚ) (mult : TimeBucket → ℚ) (bucket : TimeBucket)
    (draw jitter : ℚ) (h0 : 0 ≤ minD) (hmm : minD ≤ maxD) (hmult : 1 ≤ mult bucket)
    (hj0 : 0 ≤ jitter) (hj1 : jitter ≤ 1/10) :
    minD ≤ calculateDelay minD maxD mult bucket draw jitter ∧
    calculateDelay minD maxD mult bucket draw jitter ≤ maxD * mult bucket * (11/10) ∧
    (mult bucket = 1 → jitter = 0 →
      calculateDelay minD maxD mult bucket draw jitter ≤ maxD) := by
  have h1 : minD ≤ clampQ minD maxD draw := le_max_left _ _
  have h2 : clampQ minD maxD draw ≤ maxD := max_le hmm (min_le_left _ _)
  have h0c : 0 ≤ clampQ minD maxD draw := le_trans h0 h1
  have hm0 : (0:ℚ) ≤ mult bucket := le_trans zero_le_one hmult
  refine ⟨?_, ?_, ?_⟩
  · have e1 : clampQ minD maxD draw ≤ clampQ minD maxD draw * mult bucket :=
      le_mul_of_one_le_right h0c hmult
    have e2 : clampQ minD maxD draw * mult bucket
        ≤ clampQ minD maxD draw * mult bucket * (1 + jitter) :=
      le_mul_of_one_le_right (mul_nonneg h0c hm0) (by linarith)
    calc minD ≤ clampQ minD maxD draw := h1
      _ ≤ clampQ minD maxD draw * mult bucket := e1
      _ ≤ clampQ minD maxD draw * mult bucket * (1 + jitter) := e2
  · have e1 : clampQ minD maxD draw * mult bucket ≤ maxD * mult bucket :=
      mul_le_mul_of_nonneg_right h2 hm0
    have e2 : clampQ minD maxD draw * mult bucket * (1 + jitter)
        ≤ maxD * mult bucket * (1 + jitter) :=
      mul_le_mul_of_nonneg_right e1 (by linarith)
    have e3 : maxD * mult bucket * (1 + jitter) ≤ maxD * mult bucket * (11/10) :=
      mul_le_mul_of_nonneg_left (by linarith) (mul_nonneg (le_trans h0 hmm) hm0)
    exact le_trans e2 e3
  · intro hm1 hj
    unfold calculateDelay
    rw [hm1, hj]
    simpa using h2

/-- Witness for C7's amended bounds at the generated defaults. -/
theorem calculateDelay_bounds_witness :
    (120 : ℚ) ≤ calculateDelay 120 600 (fun _ => 1) TimeBucket.lunchHour 500 (1/20) ∧
    calculateDelay 120 600 (fun _ => 1) TimeBucket.lunchHour 500 (1/20)
      ≤ 600 * (fun _ : TimeBucket => (1:ℚ)) TimeBucket.lunchHour * (11/10) :=
  ⟨(calculateDelay_bounds 120 600 (fun _ => 1) TimeBucket.lunchHour 500 (1/20)
      (by norm_num) (by norm_num) (by norm_num) (by norm_num) (by norm_num)).1,
   (calculateDelay_bounds 120 600 (fun _ => 1) TimeBucket.lunchHour 500 (1/20)
      (by norm_num) (by norm_num) (by norm_num) (by norm_num) (by norm_num)).2.1⟩
